import Mathlib

/-!
Verification of the sound-sleuth audio pipeline.

This file gives a shallow embedding of the two core components of the
repository and proves the specification's testable properties against it:

* `src/hooks/useAudioRecorder.ts` — the raw-PCM capture hook: `encodeWAV`
  (float samples to a 44-byte WAV header plus little-endian 16-bit PCM),
  `calculateRMS`, and the `stopRecording` teardown sequence.
* the Deno edge function (identify-song) — request validation, HMAC-SHA1
  request signing, and normalization of the upstream ACRCloud response
  into song data or a typed error.

Numbers: JavaScript floats are modelled as exact rationals (`ℚ`); machine
integers are `Nat`/`Int` with explicit `% 2^w` where the DataView setters
truncate.  Strings are Lean `String`s; byte payloads are `List ℕ` with
each entry a byte value.
-/

namespace SoundSleuth

/-! ## JavaScript primitives used by the source -/

/-- JavaScript `x || d` for a possibly-undefined string `x`:
the fallback `d` is taken when `x` is `undefined` or the empty string
(both falsy in JavaScript). -/
def jsOrStr (x : Option String) (d : String) : String :=
  match x with
  | none => d
  | some s => if s = "" then d else s

/-- JavaScript `n || d` for a number `n`: `0` is falsy. -/
def jsOrNat (n : Nat) (d : Nat) : Nat :=
  if n = 0 then d else n

/-- JavaScript truthiness of a possibly-undefined string. -/
def jsTruthy (x : Option String) : Bool :=
  match x with
  | none => false
  | some s => s ≠ ""

/-- JavaScript `x || undefined` for a possibly-undefined string:
an empty string collapses to `undefined`. -/
def jsOrUndef (x : Option String) : Option String :=
  match x with
  | none => none
  | some s => if s = "" then none else some s

/-- `ToIntegerOrInfinity`: JavaScript number-to-integer conversion
truncates toward zero (used by `DataView.setInt16`). -/
def ratTrunc (q : ℚ) : ℤ :=
  if q < 0 then ⌈q⌉ else ⌊q⌋

/-! ## WAV encoding (`encodeWAV`, useAudioRecorder.ts lines 13–47) -/

/-- Little-endian bytes of `DataView.setUint16` (value taken mod 2^16). -/
def u16le (v : ℕ) : List ℕ := [v % 256, v / 256 % 256]

/-- Little-endian bytes of `DataView.setUint32` (value taken mod 2^32). -/
def u32le (v : ℕ) : List ℕ :=
  [v % 256, v / 256 % 256, v / 65536 % 256, v / 16777216 % 256]

/-- Little-endian bytes of `DataView.setInt16`: two's-complement of the
integer mod 2^16. -/
def i16le (v : ℤ) : List ℕ :=
  [(v % 65536).toNat % 256, (v % 65536).toNat / 256]

/-- `writeString`: the byte at each offset is the code unit of the tag
character (all tags are ASCII). -/
def tagBytes (s : String) : List ℕ := s.data.map Char.toNat

/-- One sample of the PCM conversion loop (lines 41–42):
`const s = Math.max(-1, Math.min(1, samples[i]))` followed by
`view.setInt16(offset, s < 0 ? s * 0x8000 : s * 0x7FFF, true)`. -/
def encodePCM16 (v : ℚ) : ℤ :=
  if max (-1 : ℚ) (min 1 v) < 0 then ratTrunc (max (-1 : ℚ) (min 1 v) * 32768)
  else ratTrunc (max (-1 : ℚ) (min 1 v) * 32767)

/-- The data section: each sample written as little-endian 16 bits,
in order, at consecutive offsets from 44. -/
def pcmData (samples : List ℚ) : List ℕ :=
  samples.flatMap fun v => i16le (encodePCM16 v)

/-- The 44-byte WAV header exactly as written at offsets 0–43:
RIFF tag, chunk size `36 + 2n`, WAVE and fmt tags, subchunk size 16,
PCM format 1, mono 1, sample rate, byte rate `sampleRate * 2`,
block align 2, bits per sample 16, data tag, data size `2n`. -/
def wavHeader (n sampleRate : ℕ) : List ℕ :=
  tagBytes "RIFF" ++ u32le (36 + n * 2) ++
  tagBytes "WAVE" ++ tagBytes "fmt " ++ u32le 16 ++
  u16le 1 ++ u16le 1 ++ u32le sampleRate ++ u32le (sampleRate * 2) ++
  u16le 2 ++ u16le 16 ++
  tagBytes "data" ++ u32le (n * 2)

/-- `encodeWAV`: the full byte payload — header then converted samples. -/
def encodeWAV (samples : List ℚ) (sampleRate : ℕ) : List ℕ :=
  wavHeader samples.length sampleRate ++ pcmData samples

/-! ## Byte readers (for stating header-field properties) -/

/-- The byte at an offset of a payload (0 beyond the end). -/
def byteAt (bs : List ℕ) (i : ℕ) : ℕ := bs.getD i 0

/-- Read a little-endian 16-bit unsigned value at an offset. -/
def readU16 (bs : List ℕ) (i : ℕ) : ℕ :=
  byteAt bs i + 256 * byteAt bs (i + 1)

/-- Read a little-endian 32-bit unsigned value at an offset. -/
def readU32 (bs : List ℕ) (i : ℕ) : ℕ :=
  byteAt bs i + 256 * byteAt bs (i + 1) +
    65536 * byteAt bs (i + 2) + 16777216 * byteAt bs (i + 3)

/-! ## RMS level (`calculateRMS`, lines 50–57) -/

/-- The accumulation loop of `calculateRMS`: sum of squared samples. -/
def sumSquares (samples : List ℚ) : ℚ :=
  samples.foldl (fun acc s => acc + s * s) 0

/-- `calculateRMS`: 0 for the empty block (guard at line 51, so the
division never runs on length 0), otherwise `Math.sqrt(sum / samples.length)`. -/
noncomputable def calculateRMS (samples : List ℚ) : ℝ :=
  if samples.length = 0 then 0
  else Real.sqrt ((sumSquares samples / samples.length : ℚ))

/-! ## Recorder teardown (`stopRecording`, useAudioRecorder.ts lines 146–212)

The hook's refs are modelled as a state record; the browser handles that
`stopRecording` releases are recorded as an explicit action trace.  The
code performs, in order: cancel the animation frame if scheduled,
disconnect the processor node if present, stop every track of the media
stream if present, close the audio context if present — and only then
resolves the promise (with `null` when no samples were accumulated,
otherwise with the encoded WAV blob). -/

/-- An audio context handle; only its sample rate matters here. -/
structure AudioCtx where
  sampleRate : ℕ

/-- The hook's mutable refs at the moment `stopRecording` is called. -/
structure RecorderState where
  animationFrame : Option ℕ
  hasProcessor : Bool
  stream : Option (List ℕ)
  audioContext : Option AudioCtx
  samples : List (List ℚ)

/-- One resource release performed by `stopRecording`. -/
inductive ReleaseAction where
  | cancelAnimationFrame
  | disconnectProcessor
  | stopTrack (id : ℕ)
  | closeContext
  deriving DecidableEq

/-- `stopRecording`: the ordered release trace and the resolved value.
Every release happens before the promise resolves; the zero-sample
check (line 179) runs after the context is closed (line 176). -/
def stopRecording (st : RecorderState) : List ReleaseAction × Option (List ℕ) :=
  let a1 := match st.animationFrame with
    | some _ => [ReleaseAction.cancelAnimationFrame]
    | none => []
  let a2 := if st.hasProcessor then [ReleaseAction.disconnectProcessor] else []
  let a3 := match st.stream with
    | some tracks => tracks.map ReleaseAction.stopTrack
    | none => []
  let combinedSamples := st.samples.flatten
  let sampleRate := match st.audioContext with
    | some ctx => jsOrNat ctx.sampleRate 44100
    | none => 44100
  let a4 := match st.audioContext with
    | some _ => [ReleaseAction.closeContext]
    | none => []
  let acts := a1 ++ a2 ++ a3 ++ a4
  if combinedSamples.length = 0 then (acts, none)
  else (acts, some (encodeWAV combinedSamples sampleRate))

/-! ## HMAC-SHA1 request signing (identify-song function, lines 63–96)

The edge function computes the signature with WebCrypto
(`crypto.subtle.importKey`/`sign` with `{name: HMAC, hash: SHA-1}`) and
base64-encodes the digest.  SHA-1 (FIPS 180), HMAC (RFC 2104), base64
(RFC 4648) and UTF-8 encoding are embedded here as executable functions
over byte lists. -/

/-- Rotate a 32-bit word left by `n` bits. -/
def rotl (n x : ℕ) : ℕ :=
  (x * 2 ^ n) % 4294967296 + x % 4294967296 / 2 ^ (32 - n)

/-- Big-endian bytes of a 32-bit word. -/
def be32 (v : ℕ) : List ℕ :=
  [v / 16777216 % 256, v / 65536 % 256, v / 256 % 256, v % 256]

/-- Big-endian bytes of the 64-bit message bit length. -/
def be64 (n : ℕ) : List ℕ :=
  [n / 2 ^ 56 % 256, n / 2 ^ 48 % 256, n / 2 ^ 40 % 256, n / 2 ^ 32 % 256,
   n / 16777216 % 256, n / 65536 % 256, n / 256 % 256, n % 256]

/-- SHA-1 padding: a 0x80 byte, zeros to 56 mod 64, then the bit length. -/
def sha1Pad (msg : List ℕ) : List ℕ :=
  msg ++ [128] ++ List.replicate ((119 - msg.length % 64) % 64) 0 ++
    be64 (msg.length * 8)

/-- The sixteen big-endian 32-bit words of one 64-byte block. -/
def blockWords (block : List ℕ) : List ℕ :=
  (List.range 16).map fun j =>
    byteAt block (4 * j) * 16777216 + byteAt block (4 * j + 1) * 65536 +
      byteAt block (4 * j + 2) * 256 + byteAt block (4 * j + 3)

/-- Extend the sixteen block words to the eighty schedule words:
`w[i] = rotl 1 (w[i-3] xor w[i-8] xor w[i-14] xor w[i-16])`. -/
def expandSchedule (w : List ℕ) : List ℕ :=
  (List.range 64).foldl
    (fun ws _ =>
      ws ++ [rotl 1 ((ws.getD (ws.length - 3) 0) ^^^ (ws.getD (ws.length - 8) 0) ^^^
        (ws.getD (ws.length - 14) 0) ^^^ (ws.getD (ws.length - 16) 0))])
    w

/-- The SHA-1 round function for round `i`. -/
def sha1F (i b c d : ℕ) : ℕ :=
  if i < 20 then (b &&& c) ||| ((b ^^^ 4294967295) &&& d)
  else if i < 40 then b ^^^ c ^^^ d
  else if i < 60 then (b &&& c) ||| (b &&& d) ||| (c &&& d)
  else b ^^^ c ^^^ d

/-- The SHA-1 round constant for round `i`. -/
def sha1K (i : ℕ) : ℕ :=
  if i < 20 then 1518500249
  else if i < 40 then 1859775393
  else if i < 60 then 2400959708
  else 3395469782

/-- Compress one 64-byte block into the running five-word state. -/
def sha1Compress (h : ℕ × ℕ × ℕ × ℕ × ℕ) (block : List ℕ) : ℕ × ℕ × ℕ × ℕ × ℕ :=
  let ws := expandSchedule (blockWords block)
  let final := (List.range 80).foldl
    (fun st i =>
      let (a, b, c, d, e) := st
      let temp := (rotl 5 a + sha1F i b c d + e + sha1K i + ws.getD i 0) % 4294967296
      (temp, a, rotl 30 b, c, d))
    h
  match h, final with
  | (h0, h1, h2, h3, h4), (a, b, c, d, e) =>
    ((h0 + a) % 4294967296, (h1 + b) % 4294967296, (h2 + c) % 4294967296,
     (h3 + d) % 4294967296, (h4 + e) % 4294967296)

/-- SHA-1 of a byte list: pad, compress each block, emit the five words
big-endian. -/
def sha1 (msg : List ℕ) : List ℕ :=
  let padded := sha1Pad msg
  let blocks := (List.range (padded.length / 64)).map
    fun i => (padded.drop (64 * i)).take 64
  match blocks.foldl sha1Compress
      (1732584193, 4023233417, 2562383102, 271733878, 3285377520) with
  | (h0, h1, h2, h3, h4) => be32 h0 ++ be32 h1 ++ be32 h2 ++ be32 h3 ++ be32 h4

/-- HMAC-SHA1 (RFC 2104) with a 64-byte block size: hash an over-long
key, zero-pad, then the nested inner (0x36) and outer (0x5c) hashes. -/
def hmacSha1 (key msg : List ℕ) : List ℕ :=
  let k1 := if 64 < key.length then sha1 key else key
  let k2 := k1 ++ List.replicate (64 - k1.length) 0
  sha1 ((k2.map fun b => b ^^^ 92) ++ sha1 ((k2.map fun b => b ^^^ 54) ++ msg))

/-- The base64 alphabet (RFC 4648). -/
def b64Char (n : ℕ) : Char :=
  ("ABCDEFGHIJKLMNOPQRSTUVWXYZabcdefghijklmnopqrstuvwxyz0123456789+/").data.getD n 'A'

/-- Base64 encoding of a byte list, with `=` padding. -/
def base64Encode : List ℕ → String
  | [] => ""
  | [a] => String.mk [b64Char (a / 4), b64Char (a % 4 * 16)] ++ "=="
  | [a, b] =>
    String.mk [b64Char (a / 4), b64Char (a % 4 * 16 + b / 16), b64Char (b % 16 * 4)] ++ "="
  | a :: b :: c :: rest =>
    String.mk [b64Char (a / 4), b64Char (a % 4 * 16 + b / 16),
      b64Char (b % 16 * 4 + c / 64), b64Char (c % 64)] ++ base64Encode rest

/-- UTF-8 bytes of one character (`TextEncoder` semantics). -/
def utf8Char (c : Char) : List ℕ :=
  let n := c.toNat
  if n < 128 then [n]
  else if n < 2048 then [192 + n / 64, 128 + n % 64]
  else if n < 65536 then [224 + n / 4096, 128 + n / 64 % 64, 128 + n % 64]
  else [240 + n / 262144, 128 + n / 4096 % 64, 128 + n / 64 % 64, 128 + n % 64]

/-- `TextEncoder().encode`: UTF-8 bytes of a string. -/
def utf8Bytes (s : String) : List ℕ := s.data.flatMap utf8Char

/-- JavaScript `Array.prototype.join(sep)`. -/
def jsJoin (sep : String) : List String → String
  | [] => ""
  | x :: rest => rest.foldl (fun acc y => acc ++ sep ++ y) x

/-- The request's data type field (line 64). -/
def dataType : String := "audio"

/-- The request's signature version field (line 65). -/
def signatureVersion : String := "1"

/-- `stringToSign` (lines 68–75): the six signature elements joined
with a newline. -/
def stringToSign (accessKey timestamp : String) : String :=
  jsJoin "\n" ["POST", "/v1/identify", accessKey, dataType, signatureVersion, timestamp]

/-- The request signature (lines 77–96): base64 of the HMAC-SHA1 digest
of the UTF-8 bytes of `stringToSign`, keyed with the UTF-8 bytes of the
access secret. -/
def signature (accessKey accessSecret timestamp : String) : String :=
  base64Encode (hmacSha1 (utf8Bytes accessSecret) (utf8Bytes (stringToSign accessKey timestamp)))

/-! ## The identify endpoint (identify-song function)

The upstream ACRCloud JSON response is modelled structurally; every
field reached by an optional chain in the source is an `Option`.  The
handler is a pure function of the parsed request, the environment and
the upstream response, returning the HTTP response it would produce
together with a flag recording whether the upstream `fetch` was
reached. -/

/-- One entry of `artists`. -/
structure ArtistJson where
  name : String

/-- The `album` object. -/
structure AlbumJson where
  name : Option String
  cover : Option String

/-- The `external_metadata.spotify.track` object. -/
structure SpotifyTrackJson where
  id : Option String

/-- The `external_metadata.spotify` object. -/
structure SpotifyJson where
  track : Option SpotifyTrackJson

/-- The `external_metadata` object. -/
structure ExternalMetadataJson where
  spotify : Option SpotifyJson

/-- The `external_ids` object. -/
structure ExternalIdsJson where
  isrc : Option String

/-- One entry of `metadata.music`. -/
structure MusicJson where
  title : Option String
  artists : Option (List ArtistJson)
  album : Option AlbumJson
  release_date : Option String
  external_metadata : Option ExternalMetadataJson
  external_ids : Option ExternalIdsJson

/-- The `status` object of the upstream response. -/
structure StatusJson where
  code : ℕ
  msg : Option String

/-- The `metadata` object of the upstream response. -/
structure MetadataJson where
  music : Option (List MusicJson)

/-- The parsed upstream response. -/
structure AcrResponse where
  status : StatusJson
  metadata : Option MetadataJson

/-- The optional chain `music.external_metadata?.spotify?.track?.id`. -/
def spotifyTrackId (m : MusicJson) : Option String :=
  (((m.external_metadata.bind ExternalMetadataJson.spotify).bind
    SpotifyJson.track).bind SpotifyTrackJson.id)

/-- The optional chain `music.external_ids?.isrc`. -/
def musicIsrc (m : MusicJson) : Option String :=
  m.external_ids.bind ExternalIdsJson.isrc

/-- The optional chain `music.artists?.[0]?.name`. -/
def firstArtistName (m : MusicJson) : Option String :=
  (m.artists.bind List.head?).map ArtistJson.name

/-- The normalized song payload returned on success. -/
structure SongData where
  title : Option String
  artist : String
  album : Option String
  albumArt : Option String
  releaseDate : Option String
  externalUrl : Option String
  deriving DecidableEq

/-- `songData` (lines 158–169): field-by-field normalization of the
first music entry, with JavaScript truthiness on the `||` and `?:`
operators. -/
def songData (music : MusicJson) : SongData where
  title := music.title
  artist := jsOrStr (firstArtistName music) "Unknown Artist"
  album := music.album.bind AlbumJson.name
  albumArt := jsOrUndef (music.album.bind AlbumJson.cover)
  releaseDate := music.release_date
  externalUrl :=
    match spotifyTrackId music with
    | some tid =>
      if tid ≠ "" then some ("https://open.spotify.com/track/" ++ tid)
      else match musicIsrc music with
        | some i => if i ≠ "" then some ("https://www.spotify.com/search/" ++ i) else none
        | none => none
    | none =>
      match musicIsrc music with
      | some i => if i ≠ "" then some ("https://www.spotify.com/search/" ++ i) else none
      | none => none

/-- The body of an HTTP response produced by the handler. -/
inductive ResponseBody where
  | err (msg : String)
  | song (s : SongData)
  deriving DecidableEq

/-- An HTTP response: a status code and a JSON body. -/
structure HttpResponse where
  status : ℕ
  body : ResponseBody
  deriving DecidableEq

/-- Interpretation of the parsed upstream response (lines 130–169):
non-zero status code is mapped to a 404 with a code-specific message
(2004 and 1001 are special-cased, otherwise `status.msg` with a
`Song not found` fallback on falsy); on code 0, a missing or empty
music list is a 404, otherwise the first entry is normalized. -/
def interpretUpstream (result : AcrResponse) : HttpResponse :=
  if result.status.code ≠ 0 then
    let errorMessage := jsOrStr result.status.msg "Song not found"
    let errorMessage :=
      if result.status.code = 2004 then
        "No music detected in the recording. Play a song loudly near your microphone and try again."
      else if result.status.code = 1001 then
        "Song not recognized. Try a different part of the song or a more popular track."
      else errorMessage
    ⟨404, ResponseBody.err errorMessage⟩
  else
    match (result.metadata.bind MetadataJson.music).bind List.head? with
    | none => ⟨404, ResponseBody.err "Song not found"⟩
    | some music => ⟨200, ResponseBody.song (songData music)⟩

/-- The uploaded audio file: only its byte size drives the handler. -/
structure AudioFile where
  size : ℕ

/-- The deployment environment (`Deno.env`). -/
structure Env where
  accessKey : Option String
  accessSecret : Option String
  host : Option String

/-- The handler (lines 18–176), as a pure function of the parsed form
data, the environment and the upstream response it would receive.  The
boolean records whether the upstream `fetch` (line 122) was reached;
both early rejections return before the signature is computed. -/
def identifyHandler (audioFile : Option AudioFile) (env : Env)
    (upstream : AcrResponse) : HttpResponse × Bool :=
  match audioFile with
  | none => (⟨400, ResponseBody.err "No audio file provided"⟩, false)
  | some f =>
    if f.size < 50000 then
      (⟨400, ResponseBody.err "Recording too short. Please record at least 5-10 seconds of clear audio."⟩, false)
    else if ¬ (jsTruthy env.accessKey ∧ jsTruthy env.accessSecret ∧ jsTruthy env.host) then
      (⟨500, ResponseBody.err "ACRCloud credentials not configured"⟩, false)
    else
      (interpretUpstream upstream, true)

/-! ## Helper lemmas -/

theorem pcmData_length (S : List ℚ) : (pcmData S).length = 2 * S.length := by
  induction S with
  | nil => rfl
  | cons a t ih =>
    rw [show pcmData (a :: t) = i16le (encodePCM16 a) ++ pcmData t from rfl,
      List.length_append, ih]
    simp [i16le]
    omega

theorem clamp_lower (v : ℚ) : -1 ≤ max (-1 : ℚ) (min 1 v) := le_max_left _ _

theorem clamp_upper (v : ℚ) : max (-1 : ℚ) (min 1 v) ≤ 1 :=
  max_le (by norm_num) (min_le_left _ _)

/-- Claim C3: every float sample encodes to a 16-bit value in
[-32768, 32767], obtained by clamping to [-1, 1] and scaling by 32767
(clamped value non-negative) or 32768 (negative); samples at or above
1.0 encode to 32767 and samples at or below -1.0 encode to -32768. -/
theorem pcm16_clamping (v : ℚ) :
    -32768 ≤ encodePCM16 v ∧ encodePCM16 v ≤ 32767 ∧
    encodePCM16 v =
      (if 0 ≤ max (-1 : ℚ) (min 1 v)
       then ratTrunc (max (-1 : ℚ) (min 1 v) * 32767)
       else ratTrunc (max (-1 : ℚ) (min 1 v) * 32768)) ∧
    (1 ≤ v → encodePCM16 v = 32767) ∧
    (v ≤ -1 → encodePCM16 v = -32768) := by
  have hs1 := clamp_lower v
  have hs2 := clamp_upper v
  set s := max (-1 : ℚ) (min 1 v) with hsdef
  by_cases hneg : s < 0
  · have hprod : s * 32768 < 0 := mul_neg_of_neg_of_pos hneg (by norm_num)
    have hval : encodePCM16 v = ⌈s * 32768⌉ := by
      simp only [encodePCM16, ratTrunc, ← hsdef]
      rw [if_pos hneg, if_pos hprod]
    have hlow : (-32768 : ℚ) ≤ s * 32768 := by nlinarith
    refine ⟨?_, ?_, ?_, ?_, ?_⟩
    · rw [hval]
      have := Int.ceil_mono hlow
      rwa [show ((-32768 : ℚ)) = ((-32768 : ℤ) : ℚ) by norm_num, Int.ceil_intCast] at this
    · rw [hval]
      have : ⌈s * 32768⌉ ≤ (0 : ℤ) := Int.ceil_le.mpr (by exact_mod_cast hprod.le)
      omega
    · rw [if_neg (not_le.mpr hneg), hval]
      simp only [ratTrunc]
      rw [if_pos hprod]
    · intro h1
      exfalso
      have : s = 1 := by
        rw [hsdef, min_eq_left h1]
        exact max_eq_right (by norm_num)
      rw [this] at hneg
      norm_num at hneg
    · intro h1
      have hs : s = -1 := by
        rw [hsdef, min_eq_right (h1.trans (by norm_num))]
        exact max_eq_left h1
      rw [hval, hs, show ((-1 : ℚ) * 32768) = ((-32768 : ℤ) : ℚ) by norm_num,
        Int.ceil_intCast]
  · push_neg at hneg
    have hprod : ¬ s * 32767 < 0 := not_lt.mpr (mul_nonneg hneg (by norm_num))
    have hval : encodePCM16 v = ⌊s * 32767⌋ := by
      simp only [encodePCM16, ratTrunc, ← hsdef]
      rw [if_neg (not_lt.mpr hneg), if_neg hprod]
    have hup : s * 32767 ≤ 32767 := by nlinarith
    refine ⟨?_, ?_, ?_, ?_, ?_⟩
    · rw [hval]
      have : (0 : ℤ) ≤ ⌊s * 32767⌋ :=
        Int.floor_nonneg.mpr (mul_nonneg hneg (by norm_num))
      omega
    · rw [hval]
      have := Int.floor_mono hup
      rwa [show ((32767 : ℚ)) = ((32767 : ℤ) : ℚ) by norm_num, Int.floor_intCast] at this
    · rw [if_pos hneg, hval]
      simp only [ratTrunc]
      rw [if_neg hprod]
    · intro h1
      have hs : s = 1 := by
        rw [hsdef, min_eq_left h1]
        exact max_eq_right (by norm_num)
      rw [hval, hs, show ((1 : ℚ) * 32767) = ((32767 : ℤ) : ℚ) by norm_num,
        Int.floor_intCast]
    · intro h1
      exfalso
      have hs : s = -1 := by
        rw [hsdef, min_eq_right (h1.trans (by norm_num))]
        exact max_eq_left h1
      rw [hs] at hneg
      norm_num at hneg

/-- Witness for C3: a loud sample saturates high, a negative one low. -/
theorem pcm16_clamping_witness :
    encodePCM16 2 = 32767 ∧ encodePCM16 (-2) = -32768 :=
  ⟨(pcm16_clamping 2).2.2.2.1 (by norm_num),
   (pcm16_clamping (-2)).2.2.2.2 (by norm_num)⟩

theorem tagBytes_RIFF : tagBytes "RIFF" = [82, 73, 70, 70] := by decide

theorem tagBytes_WAVE : tagBytes "WAVE" = [87, 65, 86, 69] := by decide

theorem tagBytes_fmt : tagBytes "fmt " = [102, 109, 116, 32] := by decide

theorem tagBytes_data : tagBytes "data" = [100, 97, 116, 97] := by decide

theorem wavHeader_length (n r : ℕ) : (wavHeader n r).length = 44 := by
  simp [wavHeader, u16le, u32le, tagBytes_RIFF, tagBytes_WAVE, tagBytes_fmt,
    tagBytes_data]

/-- Claim C1: `encodeWAV` on N samples yields exactly `44 + 2N` bytes;
the little-endian header fields hold RIFF chunk size `36 + 2N` at
offset 4, PCM format code 1, channel count 1, the sample rate, byte
rate `r * 2`, block align 2, bits per sample 16, and data size `2N` at
offset 40; the bytes from offset 44 on are the encoded samples in
order.  The size hypotheses keep the 32-bit header fields below the
`DataView.setUint32` truncation threshold. -/
theorem encodeWAV_layout (S : List ℚ) (r : ℕ)
    (hN : 36 + 2 * S.length < 4294967296) (hr : r * 2 < 4294967296) :
    (encodeWAV S r).length = 44 + 2 * S.length ∧
    readU32 (encodeWAV S r) 4 = 36 + 2 * S.length ∧
    readU16 (encodeWAV S r) 20 = 1 ∧
    readU16 (encodeWAV S r) 22 = 1 ∧
    readU32 (encodeWAV S r) 24 = r ∧
    readU32 (encodeWAV S r) 28 = r * 2 ∧
    readU16 (encodeWAV S r) 32 = 2 ∧
    readU16 (encodeWAV S r) 34 = 16 ∧
    readU32 (encodeWAV S r) 40 = 2 * S.length ∧
    (encodeWAV S r).drop 44 = S.flatMap (fun v => i16le (encodePCM16 v)) := by
  refine ⟨?_, ?_, ?_, ?_, ?_, ?_, ?_, ?_, ?_, ?_⟩
  · rw [encodeWAV, List.length_append, wavHeader_length, pcmData_length]
  · simp only [readU32, byteAt, encodeWAV, wavHeader, u16le, u32le,
      tagBytes_RIFF, tagBytes_WAVE, tagBytes_fmt, tagBytes_data,
      List.cons_append, List.nil_append, List.getD_cons_zero, List.getD_cons_succ]
    omega
  · simp [readU16, byteAt, encodeWAV, wavHeader, u16le, u32le,
      tagBytes_RIFF, tagBytes_WAVE, tagBytes_fmt, tagBytes_data]
  · simp [readU16, byteAt, encodeWAV, wavHeader, u16le, u32le,
      tagBytes_RIFF, tagBytes_WAVE, tagBytes_fmt, tagBytes_data]
  · simp only [readU32, byteAt, encodeWAV, wavHeader, u16le, u32le,
      tagBytes_RIFF, tagBytes_WAVE, tagBytes_fmt, tagBytes_data,
      List.cons_append, List.nil_append, List.getD_cons_zero, List.getD_cons_succ]
    omega
  · simp only [readU32, byteAt, encodeWAV, wavHeader, u16le, u32le,
      tagBytes_RIFF, tagBytes_WAVE, tagBytes_fmt, tagBytes_data,
      List.cons_append, List.nil_append, List.getD_cons_zero, List.getD_cons_succ]
    omega
  · simp [readU16, byteAt, encodeWAV, wavHeader, u16le, u32le,
      tagBytes_RIFF, tagBytes_WAVE, tagBytes_fmt, tagBytes_data]
  · simp [readU16, byteAt, encodeWAV, wavHeader, u16le, u32le,
      tagBytes_RIFF, tagBytes_WAVE, tagBytes_fmt, tagBytes_data]
  · simp only [readU32, byteAt, encodeWAV, wavHeader, u16le, u32le,
      tagBytes_RIFF, tagBytes_WAVE, tagBytes_fmt, tagBytes_data,
      List.cons_append, List.nil_append, List.getD_cons_zero, List.getD_cons_succ]
    omega
  · rw [show (encodeWAV S r).drop 44 =
      (pcmData S).drop (44 - (wavHeader S.length r).length) from by
        rw [encodeWAV, List.drop_append_eq_append_drop, wavHeader_length]
        simp [List.drop_eq_nil_of_le, wavHeader_length]]
    rw [wavHeader_length]
    rfl

/-- Witness for C1: a one-sample payload at 44100 Hz. -/
theorem encodeWAV_layout_witness :
    (encodeWAV [(1 : ℚ) / 2] 44100).length = 44 + 2 * 1 ∧
    readU32 (encodeWAV [(1 : ℚ) / 2] 44100) 24 = 44100 := by
  have h := encodeWAV_layout [(1 : ℚ) / 2] 44100 (by norm_num) (by norm_num)
  exact ⟨by simpa using h.1, h.2.2.2.2.1⟩

theorem sumSquares_nonneg (S : List ℚ) : 0 ≤ sumSquares S := by
  have h : ∀ (l : List ℚ) (acc : ℚ), 0 ≤ acc →
      0 ≤ l.foldl (fun a s => a + s * s) acc := by
    intro l
    induction l with
    | nil => intro acc hacc; simpa using hacc
    | cons x t ih =>
      intro acc hacc
      simpa using ih _ (by nlinarith [mul_self_nonneg x])
  exact h S 0 le_rfl

/-- Claim C10: `calculateRMS` is total — 0 on the empty block with no
division performed, otherwise the square root of the mean of the
squared samples; the radicand and the result are always non-negative. -/
theorem calculateRMS_total :
    calculateRMS [] = 0 ∧
    (∀ S : List ℚ, 0 ≤ sumSquares S) ∧
    (∀ S : List ℚ, 0 ≤ calculateRMS S) ∧
    (∀ S : List ℚ, S ≠ [] →
      calculateRMS S = Real.sqrt ((sumSquares S / S.length : ℚ))) := by
  refine ⟨by simp [calculateRMS], sumSquares_nonneg, ?_, ?_⟩
  · intro S
    rw [calculateRMS]
    split
    · exact le_rfl
    · exact Real.sqrt_nonneg _
  · intro S hS
    rw [calculateRMS, if_neg (by simpa [List.length_eq_zero] using hS)]

/-- Witness for C10: the RMS of the one-sample block `[2]` is `√4`. -/
theorem calculateRMS_total_witness : calculateRMS [(2 : ℚ)] = Real.sqrt 4 := by
  have h := calculateRMS_total.2.2.2 [(2 : ℚ)] (by simp)
  rw [h]
  norm_num [sumSquares]

set_option maxRecDepth 10000 in
/-- FIPS 180 check: SHA-1 of `"abc"`. -/
theorem sha1_test_abc :
    sha1 [97, 98, 99] =
      [169, 153, 62, 54, 71, 6, 129, 106, 186, 62, 37, 113,
       120, 80, 194, 108, 156, 208, 216, 157] := by decide

set_option maxRecDepth 40000 in
/-- RFC 2202 test case 1 for HMAC-SHA1. -/
theorem hmacSha1_test_rfc2202 :
    hmacSha1 (List.replicate 20 11) (utf8Bytes "Hi There") =
      [182, 23, 49, 134, 85, 5, 114, 100, 226, 139, 192, 182,
       251, 55, 140, 142, 241, 70, 190, 0] := by decide

/-- Claim C2: the signature payload is the newline join of the six
elements in order; the signature is the base64 HMAC-SHA1 digest of its
UTF-8 bytes keyed with the secret; equal inputs give equal signatures. -/
theorem signature_payload (accessKey accessSecret timestamp : String) :
    stringToSign accessKey timestamp =
      "POST" ++ "\n" ++ "/v1/identify" ++ "\n" ++ accessKey ++ "\n" ++ "audio" ++
        "\n" ++ "1" ++ "\n" ++ timestamp ∧
    signature accessKey accessSecret timestamp =
      base64Encode (hmacSha1 (utf8Bytes accessSecret)
        (utf8Bytes (stringToSign accessKey timestamp))) ∧
    (∀ k s t : String, k = accessKey → s = accessSecret → t = timestamp →
      signature k s t = signature accessKey accessSecret timestamp) := by
  refine ⟨?_, rfl, ?_⟩
  · simp [stringToSign, jsJoin, dataType, signatureVersion]
  · intro k s t hk hs ht
    rw [hk, hs, ht]

/-- Witness for C2: the payload at concrete inputs, and determinism at
concrete inputs. -/
theorem signature_payload_witness :
    stringToSign "KEY" "1700000000" = "POST\n/v1/identify\nKEY\naudio\n1\n1700000000" ∧
    signature "A" "B" "C" = signature "A" "B" "C" :=
  ⟨((signature_payload "KEY" "SECRET" "1700000000").1).trans (by rfl),
   (signature_payload "A" "B" "C").2.2 "A" "B" "C" rfl rfl rfl⟩

theorem interpretUpstream_err (result : AcrResponse) (h : result.status.code ≠ 0) :
    interpretUpstream result = ⟨404, ResponseBody.err
      (if result.status.code = 2004 then
        "No music detected in the recording. Play a song loudly near your microphone and try again."
       else if result.status.code = 1001 then
        "Song not recognized. Try a different part of the song or a more popular track."
       else jsOrStr result.status.msg "Song not found")⟩ := by
  simp only [interpretUpstream, if_pos h]

theorem interpretUpstream_ok (result : AcrResponse) (h : result.status.code = 0) :
    interpretUpstream result =
      (match (result.metadata.bind MetadataJson.music).bind List.head? with
       | none => ⟨404, ResponseBody.err "Song not found"⟩
       | some music => ⟨200, ResponseBody.song (songData music)⟩) := by
  simp [interpretUpstream, h]

/-- Claim C5: an audio file below the 50 000-byte floor is rejected
with the too-short 400 response, for every environment and every
would-be upstream response, and the upstream fetch is never reached
(the signature and request stages come after this return). -/
theorem tooShort_rejected_early (f : AudioFile) (env : Env) (upstream : AcrResponse)
    (h : f.size < 50000) :
    identifyHandler (some f) env upstream =
      (⟨400, ResponseBody.err
        "Recording too short. Please record at least 5-10 seconds of clear audio."⟩,
       false) := by
  simp [identifyHandler, h]

/-- Witness for C5: a 49 999-byte file with no credentials configured. -/
theorem tooShort_rejected_early_witness :
    identifyHandler (some ⟨49999⟩) ⟨none, none, none⟩ ⟨⟨0, none⟩, none⟩ =
      (⟨400, ResponseBody.err
        "Recording too short. Please record at least 5-10 seconds of clear audio."⟩,
       false) :=
  tooShort_rejected_early ⟨49999⟩ ⟨none, none, none⟩ ⟨⟨0, none⟩, none⟩ (by norm_num)

/-- Claim C9: the size check precedes the credentials check — a small
audio file is rejected 400 whatever the credentials, and the 500
credentials error implies the audio was present and at or above the
floor. -/
theorem sizeCheck_before_credentials :
    (∀ (f : AudioFile) (env : Env) (upstream : AcrResponse), f.size < 50000 →
      (identifyHandler (some f) env upstream).1 =
        ⟨400, ResponseBody.err
          "Recording too short. Please record at least 5-10 seconds of clear audio."⟩) ∧
    (∀ (audioFile : Option AudioFile) (env : Env) (upstream : AcrResponse),
      (identifyHandler audioFile env upstream).1 =
        ⟨500, ResponseBody.err "ACRCloud credentials not configured"⟩ →
      ∃ f, audioFile = some f ∧ 50000 ≤ f.size) := by
  constructor
  · intro f env upstream h
    simp [identifyHandler, h]
  · intro audioFile env upstream h
    match audioFile with
    | none => simp [identifyHandler] at h
    | some f =>
      refine ⟨f, rfl, ?_⟩
      by_contra hlt
      push_neg at hlt
      simp [identifyHandler, hlt] at h

/-- Witness for C9: both parts at concrete requests. -/
theorem sizeCheck_before_credentials_witness :
    (identifyHandler (some ⟨49999⟩) ⟨some "k", some "s", some "h"⟩ ⟨⟨0, none⟩, none⟩).1 =
      ⟨400, ResponseBody.err
        "Recording too short. Please record at least 5-10 seconds of clear audio."⟩ ∧
    ∃ f, (some (AudioFile.mk 50000) : Option AudioFile) = some f ∧ 50000 ≤ f.size :=
  ⟨sizeCheck_before_credentials.1 ⟨49999⟩ ⟨some "k", some "s", some "h"⟩
      ⟨⟨0, none⟩, none⟩ (by norm_num),
   sizeCheck_before_credentials.2 (some ⟨50000⟩) ⟨none, none, none⟩
      ⟨⟨0, none⟩, none⟩ (by decide)⟩

/-- Counterexample to C6 as stated: with code 3000 and a *present but
empty* upstream message, the code does not pass the message through —
the JavaScript `||` treats the empty string as falsy and substitutes
the `Song not found` fallback. -/
theorem upstream_rejection_counterexample :
    interpretUpstream ⟨⟨3000, some ""⟩, none⟩ =
      ⟨404, ResponseBody.err "Song not found"⟩ ∧
    interpretUpstream ⟨⟨3000, some ""⟩, none⟩ ≠ ⟨404, ResponseBody.err ""⟩ := by
  decide

/-- Claim C6 (amended): every non-zero status code yields a 404 error
and never a song; 2004 and 1001 map to their fixed guidance messages;
any other code passes the upstream message through when it is present
and non-empty, falling back to `Song not found` when it is absent or
empty. -/
theorem upstream_rejection (result : AcrResponse) (h : result.status.code ≠ 0) :
    (interpretUpstream result).status = 404 ∧
    (∀ s, (interpretUpstream result).body ≠ ResponseBody.song s) ∧
    (result.status.code = 2004 → (interpretUpstream result).body = ResponseBody.err
      "No music detected in the recording. Play a song loudly near your microphone and try again.") ∧
    (result.status.code = 1001 → (interpretUpstream result).body = ResponseBody.err
      "Song not recognized. Try a different part of the song or a more popular track.") ∧
    (result.status.code ≠ 2004 → result.status.code ≠ 1001 →
      (∀ m, result.status.msg = some m → m ≠ "" →
        (interpretUpstream result).body = ResponseBody.err m) ∧
      ((result.status.msg = none ∨ result.status.msg = some "") →
        (interpretUpstream result).body = ResponseBody.err "Song not found")) := by
  rw [interpretUpstream_err result h]
  refine ⟨rfl, by simp, ?_, ?_, ?_⟩
  · intro h4
    simp [h4]
  · intro h1
    simp [h1]
  · intro h4 h1
    rw [if_neg h4, if_neg h1]
    constructor
    · intro m hm hne
      simp [jsOrStr, hm, hne]
    · rintro (hm | hm) <;> simp [jsOrStr, hm]

/-- Witness for C6 (amended): the 2004 mapping at a concrete response. -/
theorem upstream_rejection_witness :
    (interpretUpstream ⟨⟨2004, some "May Result"⟩, none⟩).body = ResponseBody.err
      "No music detected in the recording. Play a song loudly near your microphone and try again." :=
  (upstream_rejection ⟨⟨2004, some "May Result"⟩, none⟩ (by norm_num)).2.2.1 rfl

/-- Claim C7: a zero status code with an absent or empty music list is
a 404 `Song not found`, never a song result. -/
theorem emptyMusic_notFound (result : AcrResponse) (h0 : result.status.code = 0)
    (h : result.metadata = none ∨
      ∃ md, result.metadata = some md ∧ (md.music = none ∨ md.music = some [])) :
    interpretUpstream result = ⟨404, ResponseBody.err "Song not found"⟩ := by
  rw [interpretUpstream_ok result h0]
  rcases h with hmd | ⟨md, hmd, hmu | hmu⟩
  · simp [hmd]
  · simp [hmd, hmu]
  · simp [hmd, hmu]

/-- Witness for C7: code 0 with an empty `metadata.music` list. -/
theorem emptyMusic_notFound_witness :
    interpretUpstream ⟨⟨0, none⟩, some ⟨some []⟩⟩ =
      ⟨404, ResponseBody.err "Song not found"⟩ :=
  emptyMusic_notFound ⟨⟨0, none⟩, some ⟨some []⟩⟩ rfl
    (Or.inr ⟨⟨some []⟩, rfl, Or.inr rfl⟩)

/-- A first music entry on which claim C4's literal reading fails: an
artist is listed but its name is the empty string, and a Spotify track
id is present but empty while an ISRC is present. -/
def c4Input : MusicJson :=
  ⟨some "T", some [⟨""⟩], none, none,
   some ⟨some ⟨some ⟨some ""⟩⟩⟩, some ⟨some "XISRC"⟩⟩

/-- Counterexample to C4 as stated: at `c4Input` the first listed
artist's name is `""`, yet the artist field is `Unknown Artist` (the
JavaScript `||` treats the empty name as falsy); the Spotify track id
is present (`some ""`), yet the URL is built from the ISRC fallback,
not from the track id. -/
theorem songData_counterexample :
    firstArtistName c4Input = some "" ∧
    (songData c4Input).artist ≠ "" ∧
    (songData c4Input).artist = "Unknown Artist" ∧
    spotifyTrackId c4Input = some "" ∧
    (songData c4Input).externalUrl ≠ some ("https://open.spotify.com/track/" ++ "") ∧
    (songData c4Input).externalUrl = some "https://www.spotify.com/search/XISRC" := by
  decide

/-- Claim C4 (amended): on a success response whose first music entry
is present, the handler returns the normalized song; its artist is the
first listed artist's name when that is present and non-empty and
`Unknown Artist` otherwise; its external URL prefers a Spotify track
link from a present non-empty track id, then a Spotify search link
from a present non-empty ISRC, and is otherwise absent. -/
theorem songData_normalization (result : AcrResponse) (music : MusicJson)
    (h0 : result.status.code = 0)
    (hm : (result.metadata.bind MetadataJson.music).bind List.head? = some music) :
    interpretUpstream result = ⟨200, ResponseBody.song (songData music)⟩ ∧
    (∀ a rest, music.artists = some (a :: rest) → a.name ≠ "" →
      (songData music).artist = a.name) ∧
    ((firstArtistName music = none ∨ firstArtistName music = some "") →
      (songData music).artist = "Unknown Artist") ∧
    (∀ tid, spotifyTrackId music = some tid → tid ≠ "" →
      (songData music).externalUrl = some ("https://open.spotify.com/track/" ++ tid)) ∧
    ((spotifyTrackId music = none ∨ spotifyTrackId music = some "") →
      ∀ i, musicIsrc music = some i → i ≠ "" →
        (songData music).externalUrl = some ("https://www.spotify.com/search/" ++ i)) ∧
    ((spotifyTrackId music = none ∨ spotifyTrackId music = some "") →
      (musicIsrc music = none ∨ musicIsrc music = some "") →
      (songData music).externalUrl = none) := by
  refine ⟨?_, ?_, ?_, ?_, ?_, ?_⟩
  · rw [interpretUpstream_ok result h0, hm]
  · intro a rest hart hne
    simp [songData, firstArtistName, hart, jsOrStr, hne]
  · intro hfa
    rcases hfa with hfa | hfa <;> simp [songData, hfa, jsOrStr]
  · intro tid hid hne
    simp [songData, hid, hne]
  · intro hid i hi hne
    rcases hid with hid | hid <;> simp [songData, hid, hi, hne]
  · intro hid hi
    rcases hid with hid | hid <;> rcases hi with hi | hi <;>
      simp [songData, hid, hi]

/-- Witness for C4 (amended): the spec's Bohemian Rhapsody example —
no Spotify track id, an ISRC present, so the search link is produced. -/
theorem songData_normalization_witness :
    interpretUpstream
        ⟨⟨0, none⟩, some ⟨some [⟨some "Bohemian Rhapsody", some [⟨"Queen"⟩],
          some ⟨some "A Night at the Opera", none⟩, some "1975", none,
          some ⟨some "GBUM71029604"⟩⟩]⟩⟩ =
      ⟨200, ResponseBody.song (songData ⟨some "Bohemian Rhapsody", some [⟨"Queen"⟩],
        some ⟨some "A Night at the Opera", none⟩, some "1975", none,
        some ⟨some "GBUM71029604"⟩⟩)⟩ ∧
    (songData ⟨some "Bohemian Rhapsody", some [⟨"Queen"⟩],
        some ⟨some "A Night at the Opera", none⟩, some "1975", none,
        some ⟨some "GBUM71029604"⟩⟩).artist = "Queen" ∧
    (songData ⟨some "Bohemian Rhapsody", some [⟨"Queen"⟩],
        some ⟨some "A Night at the Opera", none⟩, some "1975", none,
        some ⟨some "GBUM71029604"⟩⟩).externalUrl =
      some ("https://www.spotify.com/search/" ++ "GBUM71029604") := by
  have h := songData_normalization
    ⟨⟨0, none⟩, some ⟨some [⟨some "Bohemian Rhapsody", some [⟨"Queen"⟩],
      some ⟨some "A Night at the Opera", none⟩, some "1975", none,
      some ⟨some "GBUM71029604"⟩⟩]⟩⟩
    ⟨some "Bohemian Rhapsody", some [⟨"Queen"⟩],
      some ⟨some "A Night at the Opera", none⟩, some "1975", none,
      some ⟨some "GBUM71029604"⟩⟩ rfl rfl
  exact ⟨h.1, h.2.1 ⟨"Queen"⟩ [] rfl (by decide),
    h.2.2.2.2.1 (Or.inl (by decide)) "GBUM71029604" rfl (by decide)⟩

/-- Claim C8: stopping with zero accumulated sample blocks resolves to
`null`, and on every path — the zero-sample one included — each
acquired resource (animation frame, processor node, stream tracks,
audio context) is released exactly once before the promise resolves. -/
theorem stopRecording_release (st : RecorderState) :
    (st.samples = [] → (stopRecording st).2 = none) ∧
    ((stopRecording st).1.count ReleaseAction.cancelAnimationFrame =
      if st.animationFrame.isSome then 1 else 0) ∧
    ((stopRecording st).1.count ReleaseAction.disconnectProcessor =
      if st.hasProcessor then 1 else 0) ∧
    ((stopRecording st).1.count ReleaseAction.closeContext =
      if st.audioContext.isSome then 1 else 0) ∧
    (∀ tracks, st.stream = some tracks → tracks.Nodup →
      ∀ id ∈ tracks, (stopRecording st).1.count (ReleaseAction.stopTrack id) = 1) := by
  have hacts : (stopRecording st).1 =
      (match st.animationFrame with
        | some _ => [ReleaseAction.cancelAnimationFrame]
        | none => []) ++
      (if st.hasProcessor then [ReleaseAction.disconnectProcessor] else []) ++
      (match st.stream with
        | some tracks => tracks.map ReleaseAction.stopTrack
        | none => []) ++
      (match st.audioContext with
        | some _ => [ReleaseAction.closeContext]
        | none => []) := by
    rw [stopRecording]
    split <;> rfl
  refine ⟨?_, ?_, ?_, ?_, ?_⟩
  · intro hs
    rw [stopRecording, if_pos (by simp [hs])]
  · rw [hacts]
    simp only [List.count_append]
    rcases st.animationFrame with _ | af <;>
      rcases st.audioContext with _ | ctx <;>
      rcases st.stream with _ | tracks <;>
      rcases hp : st.hasProcessor <;>
        simp [List.count_cons, List.count_map_of_injective _ ReleaseAction.stopTrack
          (fun a b hab => by cases hab; rfl), List.count_eq_zero]
  · rw [hacts]
    simp only [List.count_append]
    rcases st.animationFrame with _ | af <;>
      rcases st.audioContext with _ | ctx <;>
      rcases st.stream with _ | tracks <;>
      rcases hp : st.hasProcessor <;>
        simp [List.count_cons, List.count_eq_zero]
  · rw [hacts]
    simp only [List.count_append]
    rcases st.animationFrame with _ | af <;>
      rcases st.audioContext with _ | ctx <;>
      rcases st.stream with _ | tracks <;>
      rcases hp : st.hasProcessor <;>
        simp [List.count_cons, List.count_eq_zero]
  · intro tracks htr hnd id hid
    rw [hacts, htr]
    simp only [List.count_append]
    rcases st.animationFrame with _ | af <;>
      rcases st.audioContext with _ | ctx <;>
      rcases hp : st.hasProcessor <;>
        simp [List.count_cons,
          List.count_map_of_injective _ ReleaseAction.stopTrack
            (fun a b hab => by cases hab; rfl),
          List.count_eq_one_of_mem hnd hid, List.count_eq_zero]

/-- Witness for C8: a fully-acquired session stopped with no samples
resolves `null` after releasing each resource once. -/
theorem stopRecording_release_witness :
    (stopRecording ⟨some 1, true, some [7], some ⟨44100⟩, []⟩).2 = none ∧
    (stopRecording ⟨some 1, true, some [7], some ⟨44100⟩, []⟩).1.count
      (ReleaseAction.stopTrack 7) = 1 := by
  have h := stopRecording_release ⟨some 1, true, some [7], some ⟨44100⟩, []⟩
  exact ⟨h.1 rfl, h.2.2.2.2 [7] rfl (by decide) 7 (by decide)⟩

end SoundSleuth
